import Mathlib

/-
Verification of the code-analysis dashboard frontend (React/TypeScript).

The development shallowly embeds the interactive logic of the repository:
the composite-score function `calculateGlobalScore` of
`components/Results.tsx`, the complexity classifiers `getStatus`
(SpaceComplexityReport) and `getTimeColor` (Dashboard), the SOLID-report
defaulting of `SolidReport`, the WebSocket message handler and `navigateTo`
of `App.tsx`, the debounced send, and `handleRollback` of
`components/OptimizeReport.tsx`.

JavaScript values are modelled explicitly: possibly-absent fields become
`Option`, JavaScript `x || d` on strings/numbers becomes a falsy-default,
numbers become `ℚ` where fractional values can occur and `ℕ` where the code
only ever produces small integer points, and an expression that can throw a
`TypeError` (a method call on `undefined`) returns `Except JsErr`.
-/

/-- JavaScript runtime error raised by a member access or method call on
`undefined`, as thrown by `val.includes(...)` when `val` is absent. -/
inductive JsErr where
  | typeError
deriving DecidableEq

/-- JSON value as produced by `JSON.parse` in the WebSocket `onmessage`
handler of `App.tsx`. -/
inductive Json where
  | null
  | bool (b : Bool)
  | num (q : ℚ)
  | str (s : String)
  | arr (elems : List Json)
  | obj (fields : List (String × Json))

/-- JavaScript truthiness of a JSON value: `null`, `false`, `0` and the
empty string are falsy; arrays and objects are always truthy. -/
def truthy : Json → Bool
  | .null => false
  | .bool b => b
  | .num q => q != 0
  | .str s => s != ""
  | .arr _ => true
  | .obj _ => true

/-- Member access `j[key]` on a JSON value: defined on objects, `undefined`
(here `none`) on every non-object, matching how `data.error` evaluates on
arrays, strings, numbers and booleans. -/
def jsField (j : Json) (key : String) : Option Json :=
  match j with
  | .obj fields => fields.lookup key
  | _ => none

/-- Truthiness of `data.error`: truthy value of the `error` field when
present, falsy otherwise. -/
def errorTruthy (d : Json) : Bool :=
  match jsField d "error" with
  | some v => truthy v
  | none => false

/-- The `ws.onmessage` handler of `App.tsx`: `parsed` is the outcome of
`JSON.parse(event.data)` (`none` when parsing threw), `prev` the stored
`analysisResult`. The code runs `if (data && !data.error)
setAnalysisResult(data)` inside a `try`/`catch`, so the state is replaced
exactly when parsing succeeded with a truthy value whose `error` field is
absent or falsy. -/
def handleMessage (parsed : Option Json) (prev : Json) : Json :=
  match parsed with
  | none => prev
  | some d => if truthy d && !(errorTruthy d) then d else prev

/-- Status of a SOLID principle as sent by the backend. -/
inductive SolidStatus where
  | Pass
  | Violation
deriving DecidableEq

/-- Entry of `solid_report` for one principle key. -/
structure Principle where
  status : SolidStatus
  reason : String
  suggestion : String
deriving DecidableEq

/-- The five SOLID principle keys. -/
inductive SolidKey where
  | S
  | O
  | L
  | I
  | D
deriving DecidableEq

/-- The `solid_report` object: each of the keys `S`,`O`,`L`,`I`,`D` may be
absent. -/
structure SolidReportMap where
  S : Option Principle
  O : Option Principle
  L : Option Principle
  I : Option Principle
  D : Option Principle
deriving DecidableEq

/-- Lookup `solid[key]` on a `solid_report` object. -/
def SolidReportMap.get (m : SolidReportMap) : SolidKey → Option Principle
  | .S => m.S
  | .O => m.O
  | .L => m.L
  | .I => m.I
  | .D => m.D

/-- Functional update of a `solid_report` object at one key. -/
def SolidReportMap.set (m : SolidReportMap) (k : SolidKey) (p : Principle) : SolidReportMap :=
  match k with
  | .S => { m with S := some p }
  | .O => { m with O := some p }
  | .L => { m with L := some p }
  | .I => { m with I := some p }
  | .D => { m with D := some p }

/-- The `clean_report.naming_quality` sub-object. -/
structure NamingQuality where
  naming_score : Option ℚ
deriving DecidableEq

/-- The `clean_report.radon` sub-object. -/
structure Radon where
  maintainability_index : Option ℚ
deriving DecidableEq

/-- The `clean_report` sub-object; `pylint` is the list of linter findings
(only its length and messages are consumed). -/
structure CleanReport where
  naming_quality : Option NamingQuality
  radon : Option Radon
  pylint : Option (List String)
deriving DecidableEq

/-- The analysis payload received over the WebSocket, with every field
possibly absent; `error` records the truthiness of an `error` field. -/
structure AnalysisResult where
  error : Bool
  time_complexity : Option String
  space_complexity : Option String
  solid_report : Option SolidReportMap
  clean_report : Option CleanReport
deriving DecidableEq

/-- AnalysisResult with every data field absent and no error. -/
def emptyResult : AnalysisResult :=
  { error := false, time_complexity := none, space_complexity := none,
    solid_report := none, clean_report := none }

/-- CleanReport with every sub-report absent. -/
def emptyCleanReport : CleanReport :=
  { naming_quality := none, radon := none, pylint := none }

/-- JavaScript `v || d` on an optional string: the default is taken when
the value is absent or the empty string (falsy). -/
def jsOrStr (v : Option String) (d : String) : String :=
  match v with
  | some s => if s = "" then d else s
  | none => d

/-- The `clean` object of `calculateGlobalScore`:
`analysisData.clean_report || {}`. -/
def cleanOf (r : AnalysisResult) : CleanReport :=
  r.clean_report.getD emptyCleanReport

/-- The `namingScore` value of `calculateGlobalScore`:
`clean.naming_quality?.naming_score || 0`. -/
def namingScoreOf (clean : CleanReport) : ℚ :=
  (clean.naming_quality.bind NamingQuality.naming_score).getD 0

/-- The `miScore` value of `calculateGlobalScore`:
`clean.radon?.maintainability_index || 0`. -/
def miScoreOf (clean : CleanReport) : ℚ :=
  (clean.radon.bind Radon.maintainability_index).getD 0

/-- Naming points: `namingScore > 80 ? 10 : namingScore > 50 ? 7 : 0`. -/
def namingPts (clean : CleanReport) : ℕ :=
  if 80 < namingScoreOf clean then 10 else if 50 < namingScoreOf clean then 7 else 0

/-- Maintainability points: `miScore > 70 ? 10 : miScore > 40 ? 7 : 0`. -/
def miPts (clean : CleanReport) : ℕ :=
  if 70 < miScoreOf clean then 10 else if 40 < miScoreOf clean then 7 else 0

/-- Linter points: `(clean.pylint?.length === 0) ? 10 : 7`; an absent
`pylint` list makes the strict comparison false, giving 7. -/
def lintPts (clean : CleanReport) : ℕ :=
  match clean.pylint with
  | some l => if l.length = 0 then 10 else 7
  | none => 7

/-- Density points, hardcoded by the source: `const densityPts = 10`. -/
def densityPts : ℕ := 10

/-- The `cleanTotal` sum of `calculateGlobalScore`. -/
def cleanTotal (r : AnalysisResult) : ℕ :=
  namingPts (cleanOf r) + miPts (cleanOf r) + lintPts (cleanOf r) + densityPts

/-- The key list `['S', 'O', 'L', 'I', 'D']` of `calculateGlobalScore`. -/
def solidKeys : List SolidKey := [.S, .O, .L, .I, .D]

/-- The SOLID reduce of `calculateGlobalScore`: 7 points per key whose
`status` is `Pass` in `analysisData.solid_report || {}`. -/
def solidScore (r : AnalysisResult) : ℕ :=
  solidKeys.foldl
    (fun acc k =>
      acc + (if (r.solid_report.bind (fun m => m.get k)).map Principle.status
                 = some SolidStatus.Pass then 7 else 0))
    0

/-- Time points of `calculateGlobalScore`: the value defaults to `"O(1)"`
when absent or empty, and scores 15 for `"O(1)"` or `"O(N^1)"`, else 7. -/
def timeScore (r : AnalysisResult) : ℕ :=
  let timeValue := jsOrStr r.time_complexity "O(1)"
  if timeValue = "O(1)" ∨ timeValue = "O(N^1)" then 15 else 7

/-- Space points of `calculateGlobalScore`:
`analysisData.space_complexity === "O(1)" ? 10 : 7` (no default: an absent
field is not strictly equal to `"O(1)"`). -/
def spaceScore (r : AnalysisResult) : ℕ :=
  if r.space_complexity = some "O(1)" then 10 else 7

/-- The `calculateGlobalScore` helper of `components/Results.tsx`. A null
or error-carrying input returns 0; otherwise the four category sums are
added. Every branch yields an integer, so the source's `Math.round` is the
identity and the result is modelled in `ℕ`. -/
def calculateGlobalScore (analysisData : Option AnalysisResult) : ℕ :=
  match analysisData with
  | none => 0
  | some r => if r.error then 0 else cleanTotal r + solidScore r + timeScore r + spaceScore r

/-- Boolean test that `p` starts the character list `l`, used to model
JavaScript `String.prototype.includes`. -/
def hasPrefixCh : List Char → List Char → Bool
  | [], _ => true
  | _ :: _, [] => false
  | a :: as, b :: bs => a = b && hasPrefixCh as bs

/-- Boolean substring occurrence on character lists. -/
def containsSub (needle : List Char) : List Char → Bool
  | [] => needle.isEmpty
  | c :: t => hasPrefixCh needle (c :: t) || containsSub needle t

/-- JavaScript `s.includes(pat)`. -/
def strContains (s pat : String) : Bool :=
  containsSub pat.data s.data

/-- The `getStatus` classifier of `SpaceComplexityReport`: on a present
string it returns the status text and color; on an absent value the first
strict comparison with `"O(1)"` is false and the subsequent
`val.includes('n^2')` throws a `TypeError`. -/
def getStatus : Option String → Except JsErr (String × String)
  | some v =>
      .ok (if v = "O(1)" then ("Excellent", "text-status-success")
           else if strContains v "n^2" || strContains v "2^n" then ("Poor", "text-status-error")
           else if v = "O(n)" then ("Good", "text-accent-secondary")
           else ("Review", "text-status-warning"))
  | none => .error .typeError

/-- The `getTimeColor` helper of the Dashboard component: on an absent value
the very first `complexity.includes('1')` throws a `TypeError`. -/
def getTimeColor : Option String → Except JsErr String
  | some c =>
      .ok (if strContains c "1" || strContains c "log" then "text-accent-secondary"
           else if strContains c "n^2" || strContains c "!" then "text-status-error"
           else "text-accent-primary")
  | none => .error .typeError

/-- Placeholder `{ status: 'Pass', reason: 'Ready', suggestion: 'N/A' }`
used by `SolidReport` for an absent principle entry. -/
def defaultPrinciple : Principle :=
  { status := .Pass, reason := "Ready", suggestion := "N/A" }

/-- Per-key extraction of `SolidReport`:
`results.solid_report?.K || defaultPrinciple` for each key `K`. -/
def principleOf (results : AnalysisResult) (k : SolidKey) : Principle :=
  (results.solid_report.bind (fun m => m.get k)).getD defaultPrinciple

/-- Modelled from the spec: the `Page` enumeration of `types.ts`, a file
not among the sources; its variants are those used by `App.tsx` and
enumerated in the navigation state machine of the spec. -/
inductive Page where
  | DASHBOARD
  | RESULTS
  | ABOUT
  | HELP
  | TIME_COMPLEXITY_REPORT
  | SOLID_REPORT
  | SPACE_COMPLEXITY_REPORT
  | CLEAN_CODE_REPORT
  | OPTIMIZE_REPORT
deriving DecidableEq

/-- The selectable source language of the Dashboard. -/
inductive EditorLanguage where
  | python
  | java
deriving DecidableEq

/-- The view state of `App.tsx`: the four `useState` atoms `currentPage`,
`code`, `language` and `analysisResult` (the latter kept as the raw stored
JSON value). -/
structure AppState where
  currentPage : Page
  code : String
  language : EditorLanguage
  analysisResult : Json

/-- The `navigateTo` callback of `App.tsx`: `setCurrentPage(page)` updates
only the `currentPage` atom. -/
def navigateTo (page : Page) (s : AppState) : AppState :=
  { s with currentPage := page }

/-- The debounce delay of `debouncedSend` in `App.tsx`, in milliseconds. -/
def debounceDelay : ℕ := 500

/-- Modelled from the spec: the trailing-edge semantics of the external
`lodash/debounce` wrapper around the send callback. Per the spec glossary a
debounced function suppresses rapid repeated triggers and fires only after
a quiescence interval, with the last trigger's argument: an edit at time
`t` fires iff no further edit happens before `t + debounceDelay`. Input is
the time-ordered list of `(time, code)` edits; output the list of fired
snippets. -/
def debounceFires : List (ℕ × String) → List String
  | [] => []
  | [(_, c)] => [c]
  | (t₁, c₁) :: (t₂, c₂) :: rest =>
      (if t₁ + debounceDelay ≤ t₂ then [c₁] else []) ++ debounceFires ((t₂, c₂) :: rest)

/-- Outbound WebSocket payload `JSON.stringify({ code: c })`. -/
def mkPayload (c : String) : Json :=
  Json.obj [("code", Json.str c)]

/-- Outbound messages produced by `debouncedSend` for a list of edits: each
fired snippet is sent as `{code: c}` when the socket is open, and every
send is silently dropped otherwise. -/
def sentMessages (socketOpen : Bool) (edits : List (ℕ × String)) : List Json :=
  if socketOpen then (debounceFires edits).map mkPayload else []

/-- Improvement entry of `components/OptimizeReport.tsx`. -/
structure Improvement where
  id : String
  title : String
  description : String
  category : String
  isRolledBack : Bool
deriving DecidableEq, Inhabited

/-- Per-element body of `handleRollback`:
`imp.id === id ? { ...imp, isRolledBack: !imp.isRolledBack } : imp`. -/
def toggleImp (rollbackId : String) (imp : Improvement) : Improvement :=
  if imp.id = rollbackId then { imp with isRolledBack := !imp.isRolledBack } else imp

/-- The `handleRollback` updater of `OptimizeReport`: toggle `isRolledBack`
on every improvement whose `id` matches, keep all others as they are. -/
def handleRollback (rollbackId : String) (prev : List Improvement) : List Improvement :=
  prev.map (toggleImp rollbackId)

/-- Little-endian decimal digits of `n`, with explicit fuel (`fuel ≥ n`
suffices) to keep the definition structurally recursive. -/
def natDigitsAux : ℕ → ℕ → List ℕ
  | _, 0 => []
  | 0, _ + 1 => []
  | fuel + 1, n + 1 => (n + 1) % 10 :: natDigitsAux fuel ((n + 1) / 10)

/-- Little-endian decimal digits of `n` (empty for 0). -/
def natDigits (n : ℕ) : List ℕ := natDigitsAux n n

/-- Decimal digit as a character. -/
def digitChar (d : ℕ) : Char := Char.ofNat (48 + d)

/-- Decimal rendering of a positive natural number, as JavaScript string
interpolation produces it (`natStr 0` is unused and renders as `""`). -/
def natStr (n : ℕ) : String :=
  String.mk (((natDigits n).reverse).map digitChar)

/-- Numeric value of a decimal digit character. -/
def charVal (c : Char) : ℕ := c.toNat - 48

/-- Value of a most-significant-first decimal digit string. -/
def parseNat (cs : List Char) : ℕ :=
  cs.foldl (fun a c => 10 * a + charVal c) 0

/-- Backend time-complexity label for loop depth `d`: the backend sends
`"O(1)"` for constant code and `"O(N^depth)"` otherwise; a smaller depth is
a better complexity class. -/
def timeLabel (d : ℕ) : String :=
  if d = 0 then "O(1)" else "O(N^" ++ natStr d ++ ")"

/-- Backend space-complexity label for growth degree `d` (`"O(1)"`,
`"O(n^1)"`, `"O(n^2)"`, ...); a smaller degree is a better class. -/
def spaceLabel (d : ℕ) : String :=
  if d = 0 then "O(1)" else "O(n^" ++ natStr d ++ ")"

/-- AnalysisResult of the fixed example of the spec: `O(1)` complexities,
all five SOLID principles `Pass`, naming score 90, maintainability 90 and
no pylint findings. -/
def exampleResult : AnalysisResult :=
  { error := false
    time_complexity := some "O(1)"
    space_complexity := some "O(1)"
    solid_report := some
      { S := some { status := .Pass, reason := "", suggestion := "" }
        O := some { status := .Pass, reason := "", suggestion := "" }
        L := some { status := .Pass, reason := "", suggestion := "" }
        I := some { status := .Pass, reason := "", suggestion := "" }
        D := some { status := .Pass, reason := "", suggestion := "" } }
    clean_report := some
      { naming_quality := some { naming_score := some 90 }
        radon := some { maintainability_index := some 90 }
        pylint := some [] } }

/-- Builder for an `AnalysisResult` from its five fields, used to state
frame-precise properties of `calculateGlobalScore`. -/
def mkResult (e : Bool) (tc sc : Option String) (sr : Option SolidReportMap)
    (cr : Option CleanReport) : AnalysisResult :=
  { error := e, time_complexity := tc, space_complexity := sc,
    solid_report := sr, clean_report := cr }

/-- Builder for a `CleanReport` whose numeric sub-reports, when present,
carry a present score. -/
def mkClean (nq mi : Option ℚ) (pl : Option (List String)) : CleanReport :=
  { naming_quality := nq.map NamingQuality.mk,
    radon := mi.map Radon.mk,
    pylint := pl }

/-- Sample improvement list for concrete instances. -/
def sampleImprovements : List Improvement :=
  [ { id := "1", title := "Dependency Inversion Violation Solved",
      description := "Depend on the Iterable abstraction.",
      category := "SOLID Principles", isRolledBack := false },
    { id := "2", title := "Magic Number Removed",
      description := "Named constant instead of a literal.",
      category := "Clean Code", isRolledBack := true } ]


lemma natDigitsAux_lt : ∀ (fuel n : ℕ), ∀ d ∈ natDigitsAux fuel n, d < 10 := by
  intro fuel
  induction fuel with
  | zero => intro n d hd; cases n <;> simp [natDigitsAux] at hd
  | succ f ih =>
      intro n d hd
      cases n with
      | zero => simp [natDigitsAux] at hd
      | succ m =>
          simp only [natDigitsAux, List.mem_cons] at hd
          rcases hd with h | h
          · omega
          · exact ih _ _ h

lemma natDigitsAux_val : ∀ (fuel n : ℕ), n ≤ fuel →
    (natDigitsAux fuel n).foldr (fun d a => 10 * a + d) 0 = n := by
  intro fuel
  induction fuel with
  | zero => intro n h; have : n = 0 := by omega
            subst this; rfl
  | succ f ih =>
      intro n h
      cases n with
      | zero => rfl
      | succ m =>
          have hdiv : (m + 1) / 10 ≤ f := by
            have := Nat.div_lt_self (show 0 < m + 1 by omega) (show 1 < 10 by omega)
            omega
          simp only [natDigitsAux, List.foldr_cons, ih _ hdiv]
          omega

lemma charVal_digitChar {d : ℕ} (h : d < 10) : charVal (digitChar d) = d := by
  interval_cases d <;> decide

lemma foldr_digit_chars : ∀ l : List ℕ, (∀ d ∈ l, d < 10) →
    (l.map digitChar).foldr (fun c a => 10 * a + charVal c) 0
      = l.foldr (fun d a => 10 * a + d) 0 := by
  intro l h
  induction l with
  | nil => rfl
  | cons d t ih =>
      simp only [List.map_cons, List.foldr_cons]
      rw [ih (fun x hx => h x (List.mem_cons_of_mem _ hx)),
        charVal_digitChar (h d (List.mem_cons_self _ _))]

lemma parseNat_natStr (n : ℕ) : parseNat (natStr n).data = n := by
  have h0 : (natStr n).data = ((natDigits n).map digitChar).reverse := by
    rw [natStr, List.map_reverse]
  rw [parseNat, h0, List.foldl_reverse]
  exact (foldr_digit_chars _ (natDigitsAux_lt _ _)).trans (natDigitsAux_val n n le_rfl)

lemma timeLabel_eq_ON1 {d : ℕ} (h : timeLabel d = "O(N^1)") : d = 1 := by
  rw [timeLabel] at h
  split_ifs at h with h0
  · exact absurd h (by decide)
  · have h1 : ("O(N^".data ++ (natStr d).data) ++ ")".data
        = ("O(N^".data ++ "1".data) ++ ")".data := by
      rw [← String.data_append, ← String.data_append, h]
      decide
    have h2 : (natStr d).data = "1".data :=
      List.append_cancel_left (List.append_cancel_right h1)
    have h3 := parseNat_natStr d
    rw [h2] at h3
    have h4 : parseNat "1".data = 1 := by decide
    omega

lemma timeLabel_eq_O1 {d : ℕ} (h : timeLabel d = "O(1)") : d = 0 := by
  rw [timeLabel] at h
  split_ifs at h with h0
  · exact h0
  · exfalso
    have h1 : ("O(N^".data ++ (natStr d).data) ++ ")".data = "O(1)".data := by
      rw [← String.data_append, ← String.data_append, h]
    have h2 := congrArg List.length h1
    rw [List.length_append, List.length_append] at h2
    have e1 : ("O(N^".data).length = 4 := by decide
    have e2 : (")".data).length = 1 := by decide
    have e3 : ("O(1)".data).length = 4 := by decide
    omega

lemma timeLabel_ne_empty (d : ℕ) : timeLabel d ≠ "" := by
  rw [timeLabel]
  split_ifs with h0
  · decide
  · intro h
    have h1 : ("O(N^".data ++ (natStr d).data) ++ ")".data = "".data := by
      rw [← String.data_append, ← String.data_append, h]
    have h2 := congrArg List.length h1
    rw [List.length_append, List.length_append] at h2
    have e1 : ("O(N^".data).length = 4 := by decide
    have e2 : (")".data).length = 1 := by decide
    have e3 : ("".data).length = 0 := by decide
    omega

lemma spaceLabel_eq_O1 {d : ℕ} (h : spaceLabel d = "O(1)") : d = 0 := by
  rw [spaceLabel] at h
  split_ifs at h with h0
  · exact h0
  · exfalso
    have h1 : ("O(n^".data ++ (natStr d).data) ++ ")".data = "O(1)".data := by
      rw [← String.data_append, ← String.data_append, h]
    have h2 := congrArg List.length h1
    rw [List.length_append, List.length_append] at h2
    have e1 : ("O(n^".data).length = 4 := by decide
    have e2 : (")".data).length = 1 := by decide
    have e3 : ("O(1)".data).length = 4 := by decide
    omega

lemma namingPts_le (c : CleanReport) : namingPts c ≤ 10 := by
  rw [namingPts]; split_ifs <;> omega

lemma miPts_le (c : CleanReport) : miPts c ≤ 10 := by
  rw [miPts]; split_ifs <;> omega

lemma lintPts_bounds (c : CleanReport) : 7 ≤ lintPts c ∧ lintPts c ≤ 10 := by
  cases h : c.pylint with
  | none => simp [lintPts, h]
  | some l =>
      simp only [lintPts, h]
      split_ifs <;> omega

lemma solidScore_le (r : AnalysisResult) : solidScore r ≤ 35 := by
  rw [solidScore, solidKeys]
  simp only [List.foldl_cons, List.foldl_nil]
  split_ifs <;> omega

lemma timeScore_bounds (r : AnalysisResult) : 7 ≤ timeScore r ∧ timeScore r ≤ 15 := by
  rw [timeScore]
  split_ifs <;> omega

lemma spaceScore_bounds (r : AnalysisResult) : 7 ≤ spaceScore r ∧ spaceScore r ≤ 10 := by
  rw [spaceScore]
  split_ifs <;> omega

lemma namingPts_mono {c₁ c₂ : CleanReport} (h : namingScoreOf c₁ ≤ namingScoreOf c₂) :
    namingPts c₁ ≤ namingPts c₂ := by
  rw [namingPts, namingPts]
  split_ifs <;> first | omega | (exfalso; linarith)

lemma miPts_mono {c₁ c₂ : CleanReport} (h : miScoreOf c₁ ≤ miScoreOf c₂) :
    miPts c₁ ≤ miPts c₂ := by
  rw [miPts, miPts]
  split_ifs <;> first | omega | (exfalso; linarith)

lemma score_split (r : AnalysisResult) (h : r.error = false) :
    calculateGlobalScore (some r)
      = namingPts (cleanOf r) + miPts (cleanOf r) + lintPts (cleanOf r) + densityPts
        + solidScore r + timeScore r + spaceScore r := by
  rw [calculateGlobalScore, h, cleanTotal]
  simp

lemma timeScore_label (e : Bool) (sc : Option String) (sr : Option SolidReportMap)
    (cr : Option CleanReport) (d : ℕ) :
    timeScore (mkResult e (some (timeLabel d)) sc sr cr) = if d ≤ 1 then 15 else 7 := by
  have hne := timeLabel_ne_empty d
  rw [timeScore]
  simp only [mkResult, jsOrStr, if_neg hne]
  rcases Nat.lt_or_ge d 2 with hd | hd
  · interval_cases d <;> decide
  · have h1 : timeLabel d ≠ "O(1)" := fun hc => by have := timeLabel_eq_O1 hc; omega
    have h2 : timeLabel d ≠ "O(N^1)" := fun hc => by have := timeLabel_eq_ON1 hc; omega
    rw [if_neg, if_neg]
    · omega
    · simp [h1, h2]

lemma spaceScore_label (e : Bool) (tc : Option String) (sr : Option SolidReportMap)
    (cr : Option CleanReport) (d : ℕ) :
    spaceScore (mkResult e tc (some (spaceLabel d)) sr cr) = if d = 0 then 10 else 7 := by
  rw [spaceScore]
  simp only [mkResult]
  by_cases h : d = 0
  · subst h
    simp [spaceLabel]
  · rw [if_neg h, if_neg]
    intro hc
    exact h (spaceLabel_eq_O1 (Option.some.inj hc))

lemma toggleImp_twice (rollbackId : String) (imp : Improvement) :
    toggleImp rollbackId (toggleImp rollbackId imp) = imp := by
  rw [toggleImp, toggleImp]
  by_cases h : imp.id = rollbackId
  · cases imp
    simp_all
  · simp [h]

lemma solidScore_set_mono (e : Bool) (tc sc : Option String) (cr : Option CleanReport)
    (m : SolidReportMap) (k : SolidKey) (p : Principle) (hp : p.status = SolidStatus.Pass) :
    solidScore (mkResult e tc sc (some m) cr)
      ≤ solidScore (mkResult e tc sc (some (m.set k p)) cr) := by
  rw [solidScore, solidScore, solidKeys]
  simp only [List.foldl_cons, List.foldl_nil, mkResult, Option.some_bind]
  cases k <;>
    simp [SolidReportMap.set, SolidReportMap.get, hp] <;>
    split_ifs <;>
    omega

/-- C1: on the fixed example AnalysisResult (both complexities `O(1)`, all
five SOLID principles `Pass`, naming score 90, maintainability index 90, no
pylint findings) `calculateGlobalScore` returns exactly 100. -/
theorem calculateGlobalScore_example : calculateGlobalScore (some exampleResult) = 100 := by
  decide

/-- C9: `calculateGlobalScore` on a non-null, non-error input always lies
between 31 and 100 (the pylint, density, time and space contributions have
floors 7, 10, 7 and 7), and a null or error-carrying input yields exactly
0. -/
theorem calculateGlobalScore_range (a : Option AnalysisResult) :
    (∀ r, a = some r → r.error = false →
        31 ≤ calculateGlobalScore a ∧ calculateGlobalScore a ≤ 100)
  ∧ (a = none → calculateGlobalScore a = 0)
  ∧ (∀ r, a = some r → r.error = true → calculateGlobalScore a = 0)
  ∧ (∀ c : CleanReport, 7 ≤ lintPts c)
  ∧ densityPts = 10
  ∧ (∀ r : AnalysisResult, 7 ≤ timeScore r)
  ∧ (∀ r : AnalysisResult, 7 ≤ spaceScore r) := by
  refine ⟨?_, ?_, ?_, fun c => (lintPts_bounds c).1, rfl,
    fun r => (timeScore_bounds r).1, fun r => (spaceScore_bounds r).1⟩
  · intro r ha he
    subst ha
    rw [score_split r he]
    have h1 := namingPts_le (cleanOf r)
    have h2 := miPts_le (cleanOf r)
    have h3 := lintPts_bounds (cleanOf r)
    have h4 := solidScore_le r
    have h5 := timeScore_bounds r
    have h6 := spaceScore_bounds r
    have h7 : densityPts = 10 := rfl
    omega
  · intro ha; subst ha; rfl
  · intro r ha he
    subst ha
    simp [calculateGlobalScore, he]

/-- Witness for C9 at the all-fields-absent AnalysisResult. -/
theorem calculateGlobalScore_range_witness :
    31 ≤ calculateGlobalScore (some emptyResult)
  ∧ calculateGlobalScore (some emptyResult) ≤ 100 :=
  (calculateGlobalScore_range (some emptyResult)).1 emptyResult rfl rfl

/-- C3 counterexample: on the AnalysisResult with every field absent (a
concrete non-error input), the pylint, time-complexity and space-complexity
categories contribute 7, 15 and 7 — not 0 — and the composite score is
39. -/
theorem score_missing_defaults_counterexample :
    (cleanOf emptyResult).pylint = none ∧ lintPts (cleanOf emptyResult) ≠ 0
  ∧ emptyResult.time_complexity = none ∧ timeScore emptyResult ≠ 0
  ∧ emptyResult.space_complexity = none ∧ spaceScore emptyResult ≠ 0
  ∧ calculateGlobalScore (some emptyResult) = 39 := by
  decide

/-- C3 (amended): a missing `naming_quality`, missing `radon` and missing
`solid_report` contribute 0, but a missing `pylint` list contributes 7, a
missing `time_complexity` defaults to `"O(1)"` and contributes the full 15,
a missing `space_complexity` contributes 7, and the density contribution is
the constant 10 regardless of input. -/
theorem score_category_defaults :
    (∀ c : CleanReport, c.naming_quality = none → namingPts c = 0)
  ∧ (∀ c : CleanReport, c.radon = none → miPts c = 0)
  ∧ (∀ c : CleanReport, c.pylint = none → lintPts c = 7)
  ∧ (∀ r : AnalysisResult, r.solid_report = none → solidScore r = 0)
  ∧ (∀ r : AnalysisResult, r.time_complexity = none → timeScore r = 15)
  ∧ (∀ r : AnalysisResult, r.space_complexity = none → spaceScore r = 7)
  ∧ densityPts = 10 := by
  refine ⟨?_, ?_, ?_, ?_, ?_, ?_, rfl⟩
  · intro c h
    rw [namingPts, namingScoreOf, h]
    norm_num
  · intro c h
    rw [miPts, miScoreOf, h]
    norm_num
  · intro c h
    simp [lintPts, h]
  · intro r h
    simp [solidScore, solidKeys, h]
  · intro r h
    simp [timeScore, jsOrStr, h]
  · intro r h
    simp [spaceScore, h]

/-- Witness for C3 (amended) at concrete absent sub-reports. -/
theorem score_category_defaults_witness :
    namingPts emptyCleanReport = 0 ∧ lintPts emptyCleanReport = 7
  ∧ timeScore emptyResult = 15 :=
  ⟨score_category_defaults.1 emptyCleanReport rfl,
   score_category_defaults.2.2.1 emptyCleanReport rfl,
   score_category_defaults.2.2.2.2.1 emptyResult rfl⟩

/-- C5 counterexample: the message `"null"` parses successfully to a JSON
value that carries no `error` field, yet the handler retains the previous
state instead of replacing it by the parsed payload. -/
theorem handleMessage_falsy_counterexample :
    jsField Json.null "error" = none
  ∧ handleMessage (some Json.null) (Json.obj []) = Json.obj []
  ∧ Json.obj [] ≠ Json.null :=
  ⟨rfl, rfl, fun h => Json.noConfusion h⟩

/-- C5 (amended): the previous AnalysisResult is retained when parsing
fails, when the parsed payload is falsy (`null`, `false`, `0`, `""`), or
when its `error` field is truthy; it is replaced entirely by the parsed
payload exactly when the payload is truthy and its `error` field is absent
or falsy. -/
theorem handleMessage_spec (parsed : Option Json) (prev : Json) :
    (parsed = none → handleMessage parsed prev = prev)
  ∧ (∀ d, parsed = some d → truthy d = false → handleMessage parsed prev = prev)
  ∧ (∀ d, parsed = some d → errorTruthy d = true → handleMessage parsed prev = prev)
  ∧ (∀ d, parsed = some d → truthy d = true → errorTruthy d = false →
        handleMessage parsed prev = d) := by
  refine ⟨?_, ?_, ?_, ?_⟩
  · intro h; subst h; rfl
  · intro d h ht
    subst h
    simp [handleMessage, ht]
  · intro d h he
    subst h
    simp [handleMessage, he]
  · intro d h ht he
    subst h
    simp [handleMessage, ht, he]

/-- Witness for C5 (amended): a truthy payload without error field replaces
the stored state. -/
theorem handleMessage_spec_witness :
    handleMessage (some (Json.obj [("time_complexity", Json.str "O(1)")])) Json.null
      = Json.obj [("time_complexity", Json.str "O(1)")] :=
  (handleMessage_spec (some (Json.obj [("time_complexity", Json.str "O(1)")])) Json.null).2.2.2
    (Json.obj [("time_complexity", Json.str "O(1)")]) rfl rfl rfl

/-- C6: when `solid_report` is absent, each of the five principle cards of
`SolidReport` receives the default `{status: Pass, reason: "Ready",
suggestion: "N/A"}` placeholder. -/
theorem solidReport_defaults (r : AnalysisResult) (h : r.solid_report = none) :
    ∀ k, principleOf r k = defaultPrinciple := by
  intro k
  simp [principleOf, h]

/-- Witness for C6 at the all-fields-absent AnalysisResult and key S. -/
theorem solidReport_defaults_witness : principleOf emptyResult SolidKey.S = defaultPrinciple :=
  solidReport_defaults emptyResult rfl SolidKey.S

/-- C8: `navigateTo` changes only the `currentPage` atom; navigating from
the Dashboard to any page and back yields the state with `currentPage`
back at Dashboard and `code`, `language` and `analysisResult` untouched. -/
theorem navigateTo_frame (s : AppState) (p : Page) :
    (navigateTo p s).currentPage = p
  ∧ (navigateTo p s).code = s.code
  ∧ (navigateTo p s).language = s.language
  ∧ (navigateTo p s).analysisResult = s.analysisResult
  ∧ navigateTo Page.DASHBOARD (navigateTo p s) = { s with currentPage := Page.DASHBOARD } :=
  ⟨rfl, rfl, rfl, rfl, rfl⟩

/-- C10: `handleRollback` applied twice with the same id restores the
original list, and element-wise it toggles exactly `isRolledBack` on
matching ids and is the identity elsewhere. -/
theorem handleRollback_spec (rollbackId : String) (l : List Improvement) :
    handleRollback rollbackId (handleRollback rollbackId l) = l
  ∧ (handleRollback rollbackId l).length = l.length
  ∧ ∀ i : ℕ, i < l.length →
      (handleRollback rollbackId l).getD i default
        = (if (l.getD i default).id = rollbackId
           then { l.getD i default with isRolledBack := !(l.getD i default).isRolledBack }
           else l.getD i default) := by
  refine ⟨?_, by simp [handleRollback], ?_⟩
  · induction l with
    | nil => rfl
    | cons a t ih =>
        simp only [handleRollback, List.map_cons] at ih ⊢
        rw [toggleImp_twice, ih]
  · intro i
    induction l generalizing i with
    | nil => intro hi; simp at hi
    | cons a t ih =>
        intro hi
        cases i with
        | zero =>
            simp only [handleRollback, List.map_cons, List.getD_cons_zero]
            rfl
        | succ n =>
            simp only [handleRollback, List.map_cons, List.getD_cons_succ,
              List.length_cons] at *
            exact ih n (by omega)

/-- Witness for C10 on a concrete improvement list. -/
theorem handleRollback_spec_witness :
    handleRollback "1" (handleRollback "1" sampleImprovements) = sampleImprovements
  ∧ (handleRollback "1" sampleImprovements).getD 0 default
      = (if (sampleImprovements.getD 0 default).id = "1"
         then { sampleImprovements.getD 0 default with
                  isRolledBack := !(sampleImprovements.getD 0 default).isRolledBack }
         else sampleImprovements.getD 0 default) :=
  ⟨(handleRollback_spec "1" sampleImprovements).1,
   (handleRollback_spec "1" sampleImprovements).2.2 0 (by decide)⟩

/-- C4 counterexample: on the concrete AnalysisResult with all fields
absent, the complexity classifiers `getStatus` (SpaceComplexityReport) and
`getTimeColor` (Dashboard) throw a TypeError instead of evaluating to a
value: they assume the complexity field is present. -/
theorem classifier_throws_counterexample :
    emptyResult.space_complexity = none
  ∧ getStatus emptyResult.space_complexity = Except.error JsErr.typeError
  ∧ emptyResult.time_complexity = none
  ∧ getTimeColor emptyResult.time_complexity = Except.error JsErr.typeError :=
  ⟨rfl, rfl, rfl, rfl⟩

/-- C4 (amended): not every consumer defaults. The classifiers `getStatus`
and `getTimeColor` throw exactly when the complexity string is absent and
evaluate without error whenever it is present, while the `solid_report`
consumer and `calculateGlobalScore` do default absent sub-reports. -/
theorem consumers_default_partially :
    getStatus none = Except.error JsErr.typeError
  ∧ getTimeColor none = Except.error JsErr.typeError
  ∧ (∀ v : String, ∃ out, getStatus (some v) = Except.ok out)
  ∧ (∀ v : String, ∃ out, getTimeColor (some v) = Except.ok out)
  ∧ (∀ r : AnalysisResult, r.solid_report = none → ∀ k, principleOf r k = defaultPrinciple)
  ∧ (∀ e tc sc sr, calculateGlobalScore (some (mkResult e tc sc sr none))
        = calculateGlobalScore (some (mkResult e tc sc sr (some emptyCleanReport)))) := by
  refine ⟨rfl, rfl, fun v => ⟨_, rfl⟩, fun v => ⟨_, rfl⟩, ?_, ?_⟩
  · intro r h k
    simp [principleOf, h]
  · intro e tc sc sr
    rfl

/-- Witness for C4 (amended): the solid_report consumer defaults on a
concrete input with the sub-report absent. -/
theorem consumers_default_witness :
    principleOf emptyResult SolidKey.D = defaultPrinciple :=
  consumers_default_partially.2.2.2.2.1 emptyResult rfl SolidKey.D

/-- C7: three edits each arriving within the debounce quiescence window of
the previous one produce, on an open socket, exactly one outbound message,
whose payload is `{code: c₃}` with the last edit's content; nothing is sent
for the earlier edits. -/
theorem debouncedSend_coalesces (t₁ t₂ t₃ : ℕ) (c₁ c₂ c₃ : String)
    (h₁ : t₁ ≤ t₂) (h₂ : t₂ ≤ t₃)
    (g₁ : t₂ < t₁ + debounceDelay) (g₂ : t₃ < t₂ + debounceDelay) :
    sentMessages true [(t₁, c₁), (t₂, c₂), (t₃, c₃)] = [mkPayload c₃] := by
  simp only [debounceDelay] at g₁ g₂
  have e₁ : ¬ (t₁ + 500 ≤ t₂) := by omega
  have e₂ : ¬ (t₂ + 500 ≤ t₃) := by omega
  simp [sentMessages, debounceFires, debounceDelay, e₁, e₂]

/-- Witness for C7 at three concrete rapid edits. -/
theorem debouncedSend_coalesces_witness :
    sentMessages true [(0, "a"), (100, "ab"), (200, "abc")] = [mkPayload "abc"] :=
  debouncedSend_coalesces 0 100 200 "a" "ab" "abc" (by omega) (by omega) (by decide) (by decide)

/-- C2: `calculateGlobalScore` is monotone under each single-category
improvement: a higher present naming score, a higher present
maintainability index, fewer pylint findings, upgrading one SOLID key to a
passing principle, or a better (lower-degree) time or space complexity
class never decreases the composite score. -/
theorem calculateGlobalScore_monotone :
    (∀ (e : Bool) (tc sc : Option String) (sr : Option SolidReportMap) (mi : Option ℚ)
        (pl : Option (List String)) (q₁ q₂ : ℚ), q₁ ≤ q₂ →
        calculateGlobalScore (some (mkResult e tc sc sr (some (mkClean (some q₁) mi pl))))
          ≤ calculateGlobalScore (some (mkResult e tc sc sr (some (mkClean (some q₂) mi pl)))))
  ∧ (∀ (e : Bool) (tc sc : Option String) (sr : Option SolidReportMap) (nq : Option ℚ)
        (pl : Option (List String)) (q₁ q₂ : ℚ), q₁ ≤ q₂ →
        calculateGlobalScore (some (mkResult e tc sc sr (some (mkClean nq (some q₁) pl))))
          ≤ calculateGlobalScore (some (mkResult e tc sc sr (some (mkClean nq (some q₂) pl)))))
  ∧ (∀ (e : Bool) (tc sc : Option String) (sr : Option SolidReportMap) (nq mi : Option ℚ)
        (l₁ l₂ : List String), l₂.length ≤ l₁.length →
        calculateGlobalScore (some (mkResult e tc sc sr (some (mkClean nq mi (some l₁)))))
          ≤ calculateGlobalScore (some (mkResult e tc sc sr (some (mkClean nq mi (some l₂))))))
  ∧ (∀ (e : Bool) (tc sc : Option String) (cr : Option CleanReport) (m : SolidReportMap)
        (k : SolidKey) (p : Principle), p.status = SolidStatus.Pass →
        calculateGlobalScore (some (mkResult e tc sc (some m) cr))
          ≤ calculateGlobalScore (some (mkResult e tc sc (some (m.set k p)) cr)))
  ∧ (∀ (e : Bool) (sc : Option String) (sr : Option SolidReportMap) (cr : Option CleanReport)
        (d₁ d₂ : ℕ), d₂ ≤ d₁ →
        calculateGlobalScore (some (mkResult e (some (timeLabel d₁)) sc sr cr))
          ≤ calculateGlobalScore (some (mkResult e (some (timeLabel d₂)) sc sr cr)))
  ∧ (∀ (e : Bool) (tc : Option String) (sr : Option SolidReportMap) (cr : Option CleanReport)
        (d₁ d₂ : ℕ), d₂ ≤ d₁ →
        calculateGlobalScore (some (mkResult e tc (some (spaceLabel d₁)) sr cr))
          ≤ calculateGlobalScore (some (mkResult e tc (some (spaceLabel d₂)) sr cr))) := by
  refine ⟨?_, ?_, ?_, ?_, ?_, ?_⟩
  · intro e tc sc sr mi pl q₁ q₂ hq
    cases e with
    | true => simp [calculateGlobalScore, mkResult]
    | false =>
        rw [score_split _ rfl, score_split _ rfl]
        have hnam : namingPts (cleanOf (mkResult false tc sc sr (some (mkClean (some q₁) mi pl))))
            ≤ namingPts (cleanOf (mkResult false tc sc sr (some (mkClean (some q₂) mi pl)))) := by
          apply namingPts_mono
          simpa [cleanOf, mkResult, mkClean, namingScoreOf] using hq
        exact Nat.add_le_add (Nat.add_le_add (Nat.add_le_add (Nat.add_le_add (Nat.add_le_add
          (Nat.add_le_add hnam le_rfl) le_rfl) le_rfl) le_rfl) le_rfl) le_rfl
  · intro e tc sc sr nq pl q₁ q₂ hq
    cases e with
    | true => simp [calculateGlobalScore, mkResult]
    | false =>
        rw [score_split _ rfl, score_split _ rfl]
        have hmi : miPts (cleanOf (mkResult false tc sc sr (some (mkClean nq (some q₁) pl))))
            ≤ miPts (cleanOf (mkResult false tc sc sr (some (mkClean nq (some q₂) pl)))) := by
          apply miPts_mono
          simpa [cleanOf, mkResult, mkClean, miScoreOf] using hq
        exact Nat.add_le_add (Nat.add_le_add (Nat.add_le_add (Nat.add_le_add (Nat.add_le_add
          (Nat.add_le_add le_rfl hmi) le_rfl) le_rfl) le_rfl) le_rfl) le_rfl
  · intro e tc sc sr nq mi l₁ l₂ hl
    cases e with
    | true => simp [calculateGlobalScore, mkResult]
    | false =>
        rw [score_split _ rfl, score_split _ rfl]
        have hlint : lintPts (mkClean nq mi (some l₁)) ≤ lintPts (mkClean nq mi (some l₂)) := by
          simp only [lintPts, mkClean]
          split_ifs <;> omega
        exact Nat.add_le_add (Nat.add_le_add (Nat.add_le_add (Nat.add_le_add (Nat.add_le_add
          le_rfl hlint) le_rfl) le_rfl) le_rfl) le_rfl
  · intro e tc sc cr m k p hp
    cases e with
    | true => simp [calculateGlobalScore, mkResult]
    | false =>
        rw [score_split _ rfl, score_split _ rfl]
        have hs := solidScore_set_mono false tc sc cr m k p hp
        exact Nat.add_le_add (Nat.add_le_add (Nat.add_le_add le_rfl hs) le_rfl) le_rfl
  · intro e sc sr cr d₁ d₂ hd
    cases e with
    | true => simp [calculateGlobalScore, mkResult]
    | false =>
        rw [score_split _ rfl, score_split _ rfl, timeScore_label, timeScore_label]
        have ht : (if d₁ ≤ 1 then (15 : ℕ) else 7) ≤ (if d₂ ≤ 1 then 15 else 7) := by
          split_ifs <;> omega
        exact Nat.add_le_add (Nat.add_le_add le_rfl ht) le_rfl
  · intro e tc sr cr d₁ d₂ hd
    cases e with
    | true => simp [calculateGlobalScore, mkResult]
    | false =>
        rw [score_split _ rfl, score_split _ rfl, spaceScore_label, spaceScore_label]
        have hsp : (if d₁ = 0 then (10 : ℕ) else 7) ≤ (if d₂ = 0 then 10 else 7) := by
          split_ifs <;> omega
        exact Nat.add_le_add le_rfl hsp

/-- Witness for C2 at a concrete naming-score improvement. -/
theorem calculateGlobalScore_monotone_witness :
    calculateGlobalScore (some (mkResult false none none none (some (mkClean (some 60) none none))))
      ≤ calculateGlobalScore
          (some (mkResult false none none none (some (mkClean (some 90) none none)))) :=
  calculateGlobalScore_monotone.1 false none none none none none 60 90 (by norm_num)
